import Mathlib

/-!
Verification development for the Account REST service
(`service/routes.py` plus the Account persistence layer described in the
specification, §3–§4).

The route handlers are translated directly from `service/routes.py`.
The `Account` model class (`service.models`) is not part of the provided
source tree, so its operations (`find`, `all`, `create`, `update`,
`delete`, `serialize`, `deserialize`) are modelled from the
specification, §4.1; every such definition is marked in its doc comment.

HTTP control flow: Flask's `abort(status, msg)` raises an exception that
terminates the handler with that status. We model a handler body as an
`Except Abort` computation; an unhandled Python exception (one that is
not an HTTP abort, e.g. `ValueError` from `int`) is a distinct `Abort`
constructor, since Flask turns it into a 500 response rather than the
aborted status.
-/

/-- Outcome that terminates a handler early: either a Flask
`abort(status, message)` or an unhandled Python exception (which Flask
reports as a 500 Internal Server Error). -/
inductive Abort where
  | http (status : Nat) (msg : String)
  | exn (name : String)
deriving Repr, DecidableEq

/-- Numeric value of a character under Python `int` string conversion:
`some d` exactly when the character is a Unicode decimal digit
(category Nd). This encodes the fragment of the Unicode table used in
this development: the ASCII digits U+0030–U+0039 and the Arabic-Indic
digits U+0660–U+0669. -/
def pyCharDecimalVal (c : Char) : Option Nat :=
  if '0' ≤ c && c ≤ '9' then some (c.toNat - 48)
  else if 0x660 ≤ c.toNat && c.toNat ≤ 0x669 then some (c.toNat - 0x660)
  else none

/-- Python `str.isnumeric` classification of a single character: true
for Unicode decimal digits and for characters with a numeric value that
are not decimal digits. This encodes the fragment of the Unicode table
used in this development: the decimal digits of `pyCharDecimalVal`
together with the Latin-1 superscripts U+00B9/U+00B2/U+00B3 and vulgar
fractions U+00BC/U+00BD/U+00BE, all of which Python's `str.isnumeric`
accepts but Python's `int` rejects. -/
def pyCharNumeric (c : Char) : Bool :=
  (pyCharDecimalVal c).isSome || ['¹', '²', '³', '¼', '½', '¾'].contains c

/-- Python `str.isnumeric`: false on the empty string, otherwise true
iff every character is numeric. -/
def pyStrNumeric (s : String) : Bool :=
  !s.data.isEmpty && s.data.all pyCharNumeric

/-- Helper for `pyInt`: base-10 accumulation over the characters,
failing on the first character that is not a decimal digit. -/
def pyIntAux : List Char → Nat → Option Nat
  | [], acc => some acc
  | c :: cs, acc =>
    match pyCharDecimalVal c with
    | some d => pyIntAux cs (acc * 10 + d)
    | none => none

/-- Python `int` applied to a string: succeeds exactly when the string
is a non-empty sequence of Unicode decimal digits, returning its base-10
value; `none` models the `ValueError` raised otherwise. (Python also
accepts surrounding whitespace, a sign, and digit-group underscores;
none of those characters satisfy `str.isnumeric`, so they never reach
this conversion in `try_parse_id`, the only caller in the service.) -/
def pyInt (s : String) : Option Nat :=
  if s.data.isEmpty then none else pyIntAux s.data 0

/-- Translation of `try_parse_id` from `service/routes.py`: aborts with
400 "Id parameter must be numeric" when `id.isnumeric()` is false,
otherwise runs `int(id)`, whose `ValueError` (possible for numeric but
non-decimal characters) escapes the handler unhandled. -/
def try_parse_id (id : String) : Except Abort Nat :=
  if pyStrNumeric id then
    match pyInt id with
    | some n => Except.ok n
    | none => Except.error (Abort.exn "ValueError")
  else
    Except.error (Abort.http 400 "Id parameter must be numeric")

/-- Persisted Account record (specification §3). `date_joined` is kept
as its ISO `YYYY-MM-DD` string rendering. -/
structure Account where
  id : Nat
  name : String
  email : String
  address : String
  phone_number : Option String
  date_joined : String
deriving Repr, DecidableEq

/-- JSON request body for an Account, before validation: each field may
be absent. A request whose body is not a JSON object at all is
represented by `Option Payload = none` at the call sites. -/
structure Payload where
  name : Option String
  email : Option String
  address : Option String
  phone_number : Option String
  date_joined : Option String
deriving Repr, DecidableEq

/-- Serialized wire form of an Account: the mapping with keys
`id, name, email, address, phone_number, date_joined` produced by
`Account.serialize` (specification §4.1). -/
structure SerializedAccount where
  id : Nat
  name : String
  email : String
  address : String
  phone_number : Option String
  date_joined : String
deriving Repr, DecidableEq

/-- Modelled from the spec: `serialize()` (§4.1, `service.models` not
under the provided source) produces the six-key mapping and has no side
effects. -/
def Account.serialize (a : Account) : SerializedAccount :=
  { id := a.id, name := a.name, email := a.email, address := a.address,
    phone_number := a.phone_number, date_joined := a.date_joined }

/-- Modelled from the spec: `deserialize(payload)` (§4.1, `service.models`
not under the provided source) populates fields from a mapping; it fails
with a `DataValidationError` when the payload is not a mapping or a
required key (`name`, `email`, `address`, §3) is absent; `phone_number`
is optional and `date_joined` defaults to the creation date (`today`)
when absent; `id` is not set. The service's error handler (§7) maps
`DataValidationError` to an HTTP 400, which we fold in here. -/
def Account.deserialize (a : Account) (payload : Option Payload) (today : String) :
    Except Abort Account :=
  match payload with
  | none => Except.error (Abort.http 400 "Invalid Account: body contained bad or no data")
  | some p =>
    match p.name, p.email, p.address with
    | some n, some e, some ad =>
      Except.ok { a with name := n, email := e, address := ad,
                         phone_number := p.phone_number,
                         date_joined := p.date_joined.getD today }
    | _, _, _ => Except.error (Abort.http 400 "Invalid Account: missing required field")

/-- State of the persistence gateway: the rows of the Account table and
the next id the store will assign (specification §3: `id` assigned by
the store on creation, unique). -/
structure Store where
  accounts : List Account
  nextId : Nat
deriving Repr, DecidableEq

/-- The store with no Accounts persisted. -/
def Store.empty : Store :=
  { accounts := [], nextId := 1 }

/-- Modelled from the spec: class-level `Account.find(id)` (§4.1,
`service.models` not under the provided source) returns the Account
with that id, or `none` if absent. -/
def Account.find (s : Store) (id : Nat) : Option Account :=
  s.accounts.find? (fun a => a.id == id)

/-- Modelled from the spec: class-level `Account.all()` (§4.1,
`service.models` not under the provided source) returns every persisted
Account. -/
def Account.all (s : Store) : List Account :=
  s.accounts

/-- Modelled from the spec: `create()` (§4.1, `service.models` not under
the provided source) inserts a new row, with the store assigning the id.
Returns the created Account (with its assigned id) and the new store
state. -/
def Store.create (s : Store) (a : Account) : Account × Store :=
  let a' := { a with id := s.nextId }
  (a', { accounts := s.accounts ++ [a'], nextId := s.nextId + 1 })

/-- Modelled from the spec: `update()` (§4.1, `service.models` not under
the provided source) persists the in-memory field values to the row
identified by `id`. -/
def Store.update (s : Store) (a : Account) : Store :=
  { s with accounts := s.accounts.map (fun b => if b.id == a.id then a else b) }

/-- Modelled from the spec: `delete()` (§4.1, `service.models` not under
the provided source) removes the row identified by `id`. -/
def Store.delete (s : Store) (a : Account) : Store :=
  { s with accounts := s.accounts.filter (fun b => b.id != a.id) }

/-- Fresh in-memory Account before deserialization, as built by
`Account()` in `create_accounts`; every field is overwritten by a
successful `deserialize` and `create` before it is observed. -/
def Account.blank : Account :=
  { id := 0, name := "", email := "", address := "", phone_number := none,
    date_joined := "" }

/-- Translation of `try_get_account` from `service/routes.py`: looks up
the Account and aborts with 404 "Account not found" when `find` returns
no row. -/
def try_get_account (s : Store) (id : Nat) : Except Abort Account :=
  match Account.find s id with
  | none => Except.error (Abort.http 404 "Account not found")
  | some a => Except.ok a

/-- Translation of `check_content_type` from `service/routes.py`: reads
the request's `Content-Type` header (`none` when absent) and returns
normally only when the header is present, truthy (non-empty) and equal
to `media_type`; otherwise aborts with 415. -/
def check_content_type (media_type : String) (content_type : Option String) :
    Except Abort Unit :=
  match content_type with
  | some ct =>
    if !ct.isEmpty && ct == media_type then Except.ok ()
    else Except.error (Abort.http 415 ("Content-Type must be " ++ media_type))
  | none => Except.error (Abort.http 415 ("Content-Type must be " ++ media_type))

/-- Translation of the `POST /accounts` handler `create_accounts` from
`service/routes.py`: checks the content type, deserializes the body into
a fresh Account, creates it, and responds 201 with the serialized
Account and the placeholder `Location` header value `"/"`. The response
payload is `(body, status, location)`. The pre-abort store is returned
on every failure path. -/
def create_accounts (s : Store) (content_type : Option String)
    (body : Option Payload) (today : String) :
    Except Abort (SerializedAccount × Nat × String) × Store :=
  match check_content_type "application/json" content_type with
  | Except.error e => (Except.error e, s)
  | Except.ok _ =>
    match Account.blank.deserialize body today with
    | Except.error e => (Except.error e, s)
    | Except.ok acct =>
      let (created, s') := Store.create s acct
      (Except.ok (created.serialize, 201, "/"), s')

/-- Translation of the `GET /accounts` handler `list_accounts` from
`service/routes.py`: serializes every Account and responds 200. -/
def list_accounts (s : Store) : (List SerializedAccount × Nat) × Store :=
  (((Account.all s).map Account.serialize, 200), s)

/-- Translation of the `GET /accounts/<id>` handler `read_account` from
`service/routes.py`: parses the id, looks up the Account, and responds
200 with its serialization. -/
def read_account (s : Store) (id : String) :
    Except Abort (SerializedAccount × Nat) × Store :=
  match try_parse_id id with
  | Except.error e => (Except.error e, s)
  | Except.ok parsed =>
    match try_get_account s parsed with
    | Except.error e => (Except.error e, s)
    | Except.ok account => (Except.ok (account.serialize, 200), s)

/-- Translation of the `PUT /accounts/<id>` handler `update_account`
from `service/routes.py`: parses the id, looks up the Account,
deserializes the body into it, persists, and responds 200 with the
updated serialization. -/
def update_account (s : Store) (id : String) (body : Option Payload)
    (today : String) : Except Abort (SerializedAccount × Nat) × Store :=
  match try_parse_id id with
  | Except.error e => (Except.error e, s)
  | Except.ok parsed =>
    match try_get_account s parsed with
    | Except.error e => (Except.error e, s)
    | Except.ok account =>
      match account.deserialize body today with
      | Except.error e => (Except.error e, s)
      | Except.ok updated => (Except.ok (updated.serialize, 200), Store.update s updated)

/-- Translation of the `DELETE /accounts/<id>` handler `delete_account`
from `service/routes.py`: parses the id, looks up the Account, deletes
it, and responds 204 with an empty body. -/
def delete_account (s : Store) (id : String) :
    Except Abort (String × Nat) × Store :=
  match try_parse_id id with
  | Except.error e => (Except.error e, s)
  | Except.ok parsed =>
    match try_get_account s parsed with
    | Except.error e => (Except.error e, s)
    | Except.ok account => (Except.ok ("", 204), Store.delete s account)

/-- One HTTP request against the service, carrying exactly the inputs
the corresponding handler reads. -/
inductive Op where
  | create (content_type : Option String) (body : Option Payload) (today : String)
  | read (id : String)
  | update (id : String) (body : Option Payload) (today : String)
  | delete (id : String)
  | list
deriving Repr, DecidableEq

/-- Store state after handling one request. -/
def stepStore (s : Store) : Op → Store
  | Op.create ct body today => (create_accounts s ct body today).2
  | Op.read i => (read_account s i).2
  | Op.update i body today => (update_account s i body today).2
  | Op.delete i => (delete_account s i).2
  | Op.list => (list_accounts s).2

/-- Store state after handling a sequence of requests in order. -/
def runStore : Store → List Op → Store
  | s, [] => s
  | s, op :: ops => runStore (stepStore s op) ops

/-- Ids of the Accounts currently persisted in the store. -/
def storeIds (s : Store) : List Nat :=
  s.accounts.map (fun a => a.id)

/-- Ids of the Accounts returned by the `GET /accounts` handler. -/
def listedIds (s : Store) : List Nat :=
  (list_accounts s).1.1.map (fun sa => sa.id)

/-- Ghost bookkeeping following the specification's words ("the set of
ids assigned by successful creates and not yet successfully deleted",
§8): a successful create appends the id it reports, a successful delete
removes the id it parsed, every other request leaves the set unchanged.
This definition deliberately mirrors the SPEC's description, not the
handler code, so that the listing claim compares the two. -/
def stepLive (s : Store) (live : List Nat) : Op → List Nat
  | Op.create ct body today =>
    match (create_accounts s ct body today).1 with
    | Except.ok (sa, _, _) => live ++ [sa.id]
    | Except.error _ => live
  | Op.delete i =>
    match (delete_account s i).1, try_parse_id i with
    | Except.ok _, Except.ok n => live.filter (fun m => m ≠ n)
    | _, _ => live
  | _ => live

/-- Store state and spec-side live-id set after a sequence of requests. -/
def runOps : Store → List Nat → List Op → Store × List Nat
  | s, live, [] => (s, live)
  | s, live, op :: ops => runOps (stepStore s op) (stepLive s live op) ops

/-- True when handling `op` in state `s` is a successful create whose
reported (store-assigned) id is `X`. -/
def assignsId (s : Store) (op : Op) (X : Nat) : Bool :=
  match op with
  | Op.create ct body today =>
    match (create_accounts s ct body today).1 with
    | Except.ok (sa, _, _) => sa.id == X
    | Except.error _ => false
  | _ => false

/-- True when no request along the run from `s` is a successful create
assigning the id `X` ("no intervening create re-assigns X"). -/
def avoidsId : Store → List Op → Nat → Bool
  | _, [], _ => true
  | s, op :: ops, X => !assignsId s op X && avoidsId (stepStore s op) ops X

/-- Concrete store with a single Account of id 1, used by the concrete
evaluations below. -/
def sampleAccount : Account :=
  { id := 1, name := "A", email := "a@x.com", address := "addr",
    phone_number := some "123", date_joined := "2020-01-01" }

/-- Concrete one-account store. -/
def sampleStore : Store :=
  { accounts := [sampleAccount], nextId := 2 }

/-- Concrete complete request body. -/
def samplePayload : Payload :=
  { name := some "B", email := some "b@x.com", address := some "baddr",
    phone_number := none, date_joined := some "2021-02-02" }

lemma read_account_store (s : Store) (i : String) : (read_account s i).2 = s := by
  unfold read_account
  rcases try_parse_id i with e | n
  · rfl
  · rcases h : try_get_account s n with e | a <;> simp [h]

lemma list_accounts_store (s : Store) : (list_accounts s).2 = s := rfl

lemma map_id_update (l : List Account) (u : Account) :
    (l.map (fun b => if b.id == u.id then u else b)).map (fun a => a.id) =
      l.map (fun a => a.id) := by
  induction l with
  | nil => rfl
  | cons b l ih =>
    simp only [List.map_cons, ih]
    by_cases h : b.id = u.id
    · simp [h]
    · simp [h]

lemma map_id_filter (l : List Account) (k : Nat) :
    (l.filter (fun b => b.id != k)).map (fun a => a.id) =
      (l.map (fun a => a.id)).filter (fun m => m != k) := by
  induction l with
  | nil => rfl
  | cons b l ih =>
    simp only [List.map_cons, List.filter]
    cases hbk : b.id != k
    · simp [hbk, ih]
    · simp [hbk, ih]

lemma filter_ne_bne (l : List Nat) (n : Nat) :
    l.filter (fun m => m ≠ n) = l.filter (fun m => m != n) := by
  apply List.filter_congr
  intro m _
  by_cases h : m = n <;> simp [h]

lemma try_get_account_ok (s : Store) (n : Nat) (a : Account)
    (h : try_get_account s n = Except.ok a) :
    Account.find s n = some a ∧ a.id = n := by
  unfold try_get_account at h
  rcases hf : Account.find s n with _ | b <;> rw [hf] at h
  · exact absurd h (by simp)
  · injection h with h'
    subst h'
    refine ⟨rfl, ?_⟩
    unfold Account.find at hf
    have hb := List.find?_some hf
    simpa using hb

lemma update_account_storeIds (s : Store) (i : String) (b : Option Payload)
    (t : String) : storeIds (update_account s i b t).2 = storeIds s := by
  unfold update_account
  rcases try_parse_id i with e | n
  · rfl
  · rcases h : try_get_account s n with e | a
    · simp [h]
    · rcases hd : a.deserialize b t with e | u
      · simp [h, hd]
      · simp [h, hd, storeIds, Store.update]
        intro a _
        by_cases hid : a.id = u.id <;> simp [hid]

lemma stepLive_storeIds (s : Store) (op : Op) :
    storeIds (stepStore s op) = stepLive s (storeIds s) op := by
  cases op with
  | create ct b t =>
    simp only [stepStore, stepLive, create_accounts]
    rcases check_content_type "application/json" ct with e | u
    · rfl
    · rcases hd : Account.blank.deserialize b t with e | acct
      · rfl
      · simp [Store.create, storeIds, Account.serialize]
  | read i =>
    simp [stepStore, stepLive, read_account_store]
  | update i b t =>
    simp [stepStore, stepLive, update_account_storeIds]
  | delete i =>
    simp only [stepStore, stepLive]
    rcases hp : try_parse_id i with e | n
    · simp [delete_account, hp]
    · rcases hg : try_get_account s n with e | a
      · simp [delete_account, hp, hg]
      · have hid := (try_get_account_ok s n a hg).2
        simp only [delete_account, hp, hg, storeIds, Store.delete]
        rw [map_id_filter, hid, ← filter_ne_bne]
  | list => rfl

lemma runOps_storeIds (ops : List Op) (s : Store) :
    storeIds (runOps s (storeIds s) ops).1 = (runOps s (storeIds s) ops).2 := by
  induction ops generalizing s with
  | nil => rfl
  | cons op ops ih =>
    simp only [runOps]
    rw [← stepLive_storeIds]
    exact ih (stepStore s op)

lemma listedIds_eq_storeIds (s : Store) : listedIds s = storeIds s := by
  simp [listedIds, storeIds, list_accounts, Account.all, Account.serialize]

lemma find_eq_none_iff (s : Store) (X : Nat) :
    Account.find s X = none ↔ X ∉ storeIds s := by
  unfold Account.find storeIds
  rw [List.find?_eq_none]
  constructor
  · intro h hmem
    rcases List.mem_map.mp hmem with ⟨a, ha, hid⟩
    exact (h a ha) (by simpa using hid)
  · intro h a ha
    simp only [beq_iff_eq]
    intro hid
    exact h (List.mem_map.mpr ⟨a, ha, hid⟩)

lemma handlers_404 (s : Store) (xs : String) (X : Nat)
    (hx : try_parse_id xs = Except.ok X) (hfind : Account.find s X = none) :
    (read_account s xs).1 = Except.error (Abort.http 404 "Account not found") ∧
    (∀ body today, (update_account s xs body today).1 =
      Except.error (Abort.http 404 "Account not found")) ∧
    (delete_account s xs).1 = Except.error (Abort.http 404 "Account not found") := by
  have hget : try_get_account s X = Except.error (Abort.http 404 "Account not found") := by
    unfold try_get_account
    rw [hfind]
  refine ⟨?_, ?_, ?_⟩
  · simp [read_account, hx, hget]
  · intro body today
    simp [update_account, hx, hget]
  · simp [delete_account, hx, hget]

lemma not_mem_stepStore (s : Store) (op : Op) (X : Nat)
    (h : X ∉ storeIds s) (ha : assignsId s op X = false) :
    X ∉ storeIds (stepStore s op) := by
  rw [stepLive_storeIds]
  cases op with
  | create ct b t =>
    simp only [stepLive, assignsId] at *
    rcases hc : (create_accounts s ct b t).1 with e | r
    · simpa [hc] using h
    · rcases r with ⟨sa, st, loc⟩
      rw [hc] at ha
      simp only [hc]
      intro hmem
      rcases List.mem_append.mp hmem with hl | hr
      · exact h hl
      · simp only [List.mem_singleton] at hr
        subst hr
        simp at ha
  | read i => exact h
  | update i b t => exact h
  | delete i =>
    simp only [stepLive]
    rcases hd : (delete_account s i).1 with e | r
    · simpa [hd] using h
    · rcases hp : try_parse_id i with e | n
      · simpa [hd, hp] using h
      · simp only [hd, hp]
        intro hmem
        exact h (List.mem_of_mem_filter hmem)
  | list => exact h

lemma not_mem_runStore (ops : List Op) (s : Store) (X : Nat)
    (h : X ∉ storeIds s) (hav : avoidsId s ops X = true) :
    X ∉ storeIds (runStore s ops) := by
  induction ops generalizing s with
  | nil => exact h
  | cons op ops ih =>
    simp only [avoidsId, Bool.and_eq_true, Bool.not_eq_true'] at hav
    exact ih (stepStore s op) (not_mem_stepStore s op X h hav.1) hav.2

lemma delete_success_not_mem (s : Store) (xs : String) (X : Nat) (r : String × Nat)
    (hx : try_parse_id xs = Except.ok X)
    (h : (delete_account s xs).1 = Except.ok r) :
    X ∉ storeIds (delete_account s xs).2 := by
  rcases hg : try_get_account s X with e | a
  · exfalso
    simp [delete_account, hx, hg] at h
  · have hid := (try_get_account_ok s X a hg).2
    simp only [delete_account, hx, hg, storeIds, Store.delete]
    rw [map_id_filter, hid]
    intro hmem
    have h2 := List.of_mem_filter hmem
    simp at h2

lemma deserialize_missing (a0 : Account) (q : Payload) (t : String)
    (hq : q.name = none ∨ q.email = none ∨ q.address = none) :
    Account.deserialize a0 (some q) t =
      Except.error (Abort.http 400 "Invalid Account: missing required field") := by
  rcases hqn : q.name with _ | qn <;>
    rcases hqe : q.email with _ | qe <;>
      rcases hqa : q.address with _ | qa <;>
        simp_all [Account.deserialize]

/-- C1: the claim that `try_parse_id` returns the integer value exactly
on all-decimal-digit strings and signals the 400 "Id parameter must be
numeric" failure on every other string fails on the code: the string
"½" contains no decimal digit, yet Python's `isnumeric` accepts it, so
the 400 branch is skipped and the subsequent `int` conversion raises an
unhandled `ValueError` (surfaced as a 500), neither returning an
integer nor signalling the 400. -/
theorem C1_try_parse_id_unicode_valueerror :
    ("½".data.all (fun c => (pyCharDecimalVal c).isSome)) = false ∧
    pyStrNumeric "½" = true ∧
    try_parse_id "½" = Except.error (Abort.exn "ValueError") :=
  ⟨rfl, rfl, rfl⟩

/-- C2: the claim that every non-digit id string gets a 400 from the
GET/PUT/DELETE handlers fails on the code at the non-digit id "½":
all three handlers terminate with an unhandled `ValueError` (a 500)
instead of the 400. The second half of the claim does hold there: the
store is never consulted (it is returned unchanged on this path, which
is taken before `try_get_account` can run). -/
theorem C2_handlers_unicode_valueerror :
    (read_account sampleStore "½").1 = Except.error (Abort.exn "ValueError") ∧
    (update_account sampleStore "½" (some samplePayload) "2024-01-01").1 =
      Except.error (Abort.exn "ValueError") ∧
    (delete_account sampleStore "½").1 = Except.error (Abort.exn "ValueError") ∧
    (read_account sampleStore "½").2 = sampleStore ∧
    (update_account sampleStore "½" (some samplePayload) "2024-01-01").2 = sampleStore ∧
    (delete_account sampleStore "½").2 = sampleStore :=
  ⟨rfl, rfl, rfl, rfl, rfl, rfl⟩

/-- C3: for every id string that parses successfully to a value `X` not
present in the store, GET, PUT and DELETE on `/accounts/{id}` all
return 404 "Account not found"; for PUT this holds for every body
(including a missing body), since the lookup precedes deserialization. -/
theorem C3_missing_id_404 (s : Store) (xs : String) (X : Nat)
    (hx : try_parse_id xs = Except.ok X)
    (hfind : Account.find s X = none) :
    (read_account s xs).1 = Except.error (Abort.http 404 "Account not found") ∧
    (∀ body today, (update_account s xs body today).1 =
      Except.error (Abort.http 404 "Account not found")) ∧
    (delete_account s xs).1 = Except.error (Abort.http 404 "Account not found") :=
  handlers_404 s xs X hx hfind

/-- C3 witness: id "7" parses to 7, which the one-account sample store
does not contain, and GET returns the 404. -/
theorem C3_missing_id_404_witness :
    try_parse_id "7" = Except.ok 7 ∧ Account.find sampleStore 7 = none ∧
    (read_account sampleStore "7").1 =
      Except.error (Abort.http 404 "Account not found") :=
  ⟨rfl, rfl, (C3_missing_id_404 sampleStore "7" 7 rfl rfl).1⟩

/-- C4: after a successful DELETE of id `X`, as long as no intervening
successful create assigns `X` again, every later GET, PUT or DELETE
request whose id string parses to `X` returns 404 "Account not found". -/
theorem C4_delete_then_404 (s : Store) (xs ys : String) (X : Nat) (r : String × Nat)
    (ops : List Op)
    (hx : try_parse_id xs = Except.ok X)
    (hdel : (delete_account s xs).1 = Except.ok r)
    (hav : avoidsId (delete_account s xs).2 ops X = true)
    (hy : try_parse_id ys = Except.ok X) :
    (read_account (runStore (delete_account s xs).2 ops) ys).1 =
      Except.error (Abort.http 404 "Account not found") ∧
    (∀ body today,
      (update_account (runStore (delete_account s xs).2 ops) ys body today).1 =
        Except.error (Abort.http 404 "Account not found")) ∧
    (delete_account (runStore (delete_account s xs).2 ops) ys).1 =
      Except.error (Abort.http 404 "Account not found") := by
  have h1 := delete_success_not_mem s xs X r hx hdel
  have h2 := not_mem_runStore ops _ X h1 hav
  exact handlers_404 _ ys X hy ((find_eq_none_iff _ X).mpr h2)

/-- C4 witness: deleting id 1 from the sample store succeeds, a listing
request intervenes (assigning nothing), and the subsequent GET on "1"
returns the 404. -/
theorem C4_delete_then_404_witness :
    try_parse_id "1" = Except.ok 1 ∧
    (delete_account sampleStore "1").1 = Except.ok ("", 204) ∧
    avoidsId (delete_account sampleStore "1").2 [Op.list] 1 = true ∧
    (read_account (runStore (delete_account sampleStore "1").2 [Op.list]) "1").1 =
      Except.error (Abort.http 404 "Account not found") :=
  ⟨rfl, rfl, rfl,
    (C4_delete_then_404 sampleStore "1" "1" 1 ("", 204) [Op.list] rfl rfl rfl rfl).1⟩

/-- C5: in every state reachable from the empty store by a sequence of
requests, the set of ids returned by the `GET /accounts` handler equals
the set of ids assigned by successful creates and not yet successfully
deleted (the spec-side ghost set carried by `stepLive`). -/
theorem C5_listed_ids_are_live (ops : List Op) (n : Nat) :
    n ∈ listedIds (runOps Store.empty [] ops).1 ↔ n ∈ (runOps Store.empty [] ops).2 := by
  have h : storeIds Store.empty = [] := rfl
  rw [listedIds_eq_storeIds, ← h, runOps_storeIds]

/-- C6: every POST whose `Content-Type` header is absent or differs from
"application/json" is answered 415 with message "Content-Type must be
application/json", whatever the body, and the store is left unchanged
(no account is created). -/
theorem C6_content_type_415 (s : Store) (ct : Option String) (body : Option Payload)
    (today : String) (h : ct ≠ some "application/json") :
    (create_accounts s ct body today).1 =
      Except.error (Abort.http 415 "Content-Type must be application/json") ∧
    (create_accounts s ct body today).2 = s := by
  have hcheck : check_content_type "application/json" ct =
      Except.error (Abort.http 415 "Content-Type must be application/json") := by
    rcases ct with _ | c
    · rfl
    · have hne : c ≠ "application/json" := by
        intro hc
        exact h (by rw [hc])
      simp [check_content_type, hne]
  constructor <;> simp [create_accounts, hcheck]

/-- C6 witness: a POST with header `text/html` and a fully valid body is
refused with the 415 and the concrete store is unchanged. -/
theorem C6_content_type_415_witness :
    (some "text/html" ≠ some "application/json") ∧
    (create_accounts sampleStore (some "text/html") (some samplePayload) "2024-01-01").1 =
      Except.error (Abort.http 415 "Content-Type must be application/json") :=
  ⟨by decide,
    (C6_content_type_415 sampleStore (some "text/html") (some samplePayload)
      "2024-01-01" (by decide)).1⟩

/-- C7: a POST with `Content-Type: application/json` and a body holding
all required fields is answered 201 with body the serialized created
Account, carrying the store-assigned id `s.nextId` and the `Location`
header value, while a body missing a required field is answered 400. -/
theorem C7_create_account (s : Store) (p : Payload) (today n e a : String)
    (hn : p.name = some n) (he : p.email = some e) (ha : p.address = some a) :
    (create_accounts s (some "application/json") (some p) today).1 =
      Except.ok ({ id := s.nextId, name := n, email := e, address := a,
                   phone_number := p.phone_number,
                   date_joined := p.date_joined.getD today }, 201, "/") ∧
    (∀ q : Payload, (q.name = none ∨ q.email = none ∨ q.address = none) →
      (create_accounts s (some "application/json") (some q) today).1 =
        Except.error (Abort.http 400 "Invalid Account: missing required field")) := by
  have hcheck : check_content_type "application/json" (some "application/json") =
      Except.ok () := rfl
  constructor
  · simp [create_accounts, hcheck, Account.deserialize, hn, he, ha,
      Store.create, Account.serialize, Account.blank]
  · intro q hq
    simp [create_accounts, hcheck, deserialize_missing Account.blank q today hq]

/-- C7 witness: posting the complete sample payload to the sample store
creates the account with the assigned id 2 and echoes its fields. -/
theorem C7_create_account_witness :
    samplePayload.name = some "B" ∧ samplePayload.email = some "b@x.com" ∧
    samplePayload.address = some "baddr" ∧
    (create_accounts sampleStore (some "application/json") (some samplePayload)
        "2024-01-01").1 =
      Except.ok ({ id := 2, name := "B", email := "b@x.com", address := "baddr",
                   phone_number := none, date_joined := "2021-02-02" }, 201, "/") :=
  ⟨rfl, rfl, rfl, by
    have h := (C7_create_account sampleStore samplePayload "2024-01-01"
      "B" "b@x.com" "baddr" rfl rfl rfl).1
    simpa [sampleStore, samplePayload] using h⟩

/-- C8: a PUT whose id parses to `X`, with `X` bound to an account in
the store and a body holding the required fields and a date, is
answered 200 with the serialization of the account after a full replace
of the mutable fields by the body's values, the id staying the one of
the stored account (which is the path id `X`); the store is updated at
that row. -/
theorem C8_update_account (s : Store) (xs : String) (X : Nat) (acct : Account)
    (p : Payload) (today n e a dj : String)
    (hx : try_parse_id xs = Except.ok X)
    (hfind : Account.find s X = some acct)
    (hn : p.name = some n) (he : p.email = some e) (ha : p.address = some a)
    (hd : p.date_joined = some dj) :
    acct.id = X ∧
    (update_account s xs (some p) today).1 =
      Except.ok ({ id := acct.id, name := n, email := e, address := a,
                   phone_number := p.phone_number, date_joined := dj }, 200) ∧
    (update_account s xs (some p) today).2 =
      Store.update s
        ({ acct with
            name := n, email := e, address := a,
            phone_number := p.phone_number, date_joined := dj }) := by
  have hid : acct.id = X := by
    unfold Account.find at hfind
    have hb := List.find?_some hfind
    simpa using hb
  have hget : try_get_account s X = Except.ok acct := by
    unfold try_get_account
    rw [hfind]
  refine ⟨hid, ?_, ?_⟩
  · simp [update_account, hx, hget, Account.deserialize, hn, he, ha, hd,
      Account.serialize]
  · simp [update_account, hx, hget, Account.deserialize, hn, he, ha, hd]

/-- C8 witness: updating account 1 of the sample store with the sample
payload returns 200 and the fully replaced fields under the same id. -/
theorem C8_update_account_witness :
    try_parse_id "1" = Except.ok 1 ∧
    Account.find sampleStore 1 = some sampleAccount ∧
    (update_account sampleStore "1" (some samplePayload) "2024-01-01").1 =
      Except.ok ({ id := 1, name := "B", email := "b@x.com", address := "baddr",
                   phone_number := none, date_joined := "2021-02-02" }, 200) :=
  ⟨rfl, rfl, by
    have h := (C8_update_account sampleStore "1" 1 sampleAccount samplePayload
      "2024-01-01" "B" "b@x.com" "baddr" "2021-02-02" rfl rfl rfl rfl rfl rfl).2.1
    simpa [sampleAccount, samplePayload] using h⟩

/-- C9: the implicit claim that `try_parse_id` always either returns an
integer or signals the 400 failure is false on the code: on "²" the
`isnumeric` guard passes but the `int` conversion raises `ValueError`,
an unhandled exception that is neither outcome. -/
theorem C9_try_parse_id_raises :
    pyStrNumeric "²" = true ∧ pyInt "²" = none ∧
    try_parse_id "²" = Except.error (Abort.exn "ValueError") :=
  ⟨rfl, rfl, rfl⟩

/-- C10: handling `GET /accounts` or `GET /accounts/{id}` returns the
store unchanged, for every store state and id string, so the set of
persisted accounts and all their fields are preserved. -/
theorem C10_reads_leave_store (s : Store) (xs : String) :
    (list_accounts s).2 = s ∧ (read_account s xs).2 = s :=
  ⟨list_accounts_store s, read_account_store s xs⟩
